import Mathlib

/-!
Verification development for the CineMatch movie-recommendation client
(`src/Frontend/src/pages/Movie.jsx`, `src/Frontend/src/hooks/useMovies.js`,
`src/Frontend/src/services/api.js`) and the spec-described recommendation
service.  JavaScript values are shallowly embedded as `JsVal`; fallible
JavaScript evaluation is embedded as `Except String`.
-/

/-- A JavaScript number: finite (rational model), `NaN`, or an infinity. -/
inductive JsNum where
  | fin (q : Rat)
  | nan
  | inf (neg : Bool)
deriving DecidableEq, Repr

/-- A JavaScript value as seen by the client code (JSON values plus
`undefined`). -/
inductive JsVal where
  | undefined
  | null
  | bool (b : Bool)
  | num (x : JsNum)
  | str (s : String)
  | arr (elems : List JsVal)
  | obj (fields : List (String × JsVal))

namespace JsVal

/-- JavaScript truthiness test: the falsy values are `undefined`, `null`,
`false`, `0`, `NaN` and the empty string. -/
def falsy : JsVal → Bool
  | .undefined => true
  | .null => true
  | .bool b => !b
  | .num (.fin q) => decide (q = 0)
  | .num .nan => true
  | .num (.inf _) => false
  | .str s => decide (s = "")
  | .arr _ => false
  | .obj _ => false

/-- JavaScript `typeof`. -/
def typeofStr : JsVal → String
  | .undefined => "undefined"
  | .null => "object"
  | .bool _ => "boolean"
  | .num _ => "number"
  | .str _ => "string"
  | .arr _ => "object"
  | .obj _ => "object"

end JsVal

/-- First-match field lookup in an object's field list; `undefined` when the key
is absent (JavaScript property access on a plain object). -/
def getFld : List (String × JsVal) → String → JsVal
  | [], _ => .undefined
  | (k, v) :: rest, key => if k = key then v else getFld rest key

/-- Property access `v.k`: throws a `TypeError` on `null`/`undefined`,
returns the field on objects, `undefined` on other primitives (the
properties the client reads are not own properties of strings, numbers,
booleans or arrays). -/
def propAccess : JsVal → String → Except String JsVal
  | .null, k => .error ("TypeError: Cannot read properties of null (reading " ++ k ++ ")")
  | .undefined, k => .error ("TypeError: Cannot read properties of undefined (reading " ++ k ++ ")")
  | .obj fs, k => .ok (getFld fs k)
  | _, _ => .ok .undefined

/-- The JavaScript `in` test on an object-typed value (the callers guard
with `typeof v === 'object'`; arrays do not carry the probed keys). -/
def hasProp : JsVal → String → Bool
  | .obj fs, k => fs.any (fun p => p.1 = k)
  | _, _ => false

/-- The `Object.values` view of an object's field list. -/
def objValues (fs : List (String × JsVal)) : List JsVal :=
  fs.map Prod.snd

/-! ### A model of `JSON.parse`

`normalizeMovies` in `Movie.jsx` calls `JSON.parse` on string responses.
`JSON.parse` throwing a `SyntaxError` is modelled by `none`. -/

/-- JSON whitespace. -/
def isJsonWs (c : Char) : Bool :=
  c = ' ' || c = '\t' || c = '\n' || c = '\r'

/-- Drop leading JSON whitespace. -/
def skipWs : List Char → List Char
  | c :: cs => if isJsonWs c then skipWs cs else c :: cs
  | [] => []

/-- Scan a JSON string literal body (the opening quote already consumed),
returning the decoded characters and the rest of the input. -/
def scanStr : List Char → Option (List Char × List Char)
  | [] => none
  | '"' :: cs => some ([], cs)
  | '\\' :: e :: cs =>
    let ec : Option Char :=
      if e = '"' then some '"'
      else if e = '\\' then some '\\'
      else if e = '/' then some '/'
      else if e = 'n' then some '\n'
      else if e = 't' then some '\t'
      else if e = 'r' then some '\r'
      else if e = 'b' then some (Char.ofNat 8)
      else if e = 'f' then some (Char.ofNat 12)
      else none
    match ec with
    | some c =>
      match scanStr cs with
      | some (s, r) => some (c :: s, r)
      | none => none
    | none => none
  | c :: cs =>
    match scanStr cs with
    | some (s, r) => some (c :: s, r)
    | none => none

/-- Digit value of a character, if it is a decimal digit. -/
def digVal (c : Char) : Option Nat :=
  if '0' ≤ c ∧ c ≤ '9' then some (c.toNat - 48) else none

/-- Greedily scan decimal digits. -/
def scanDigits : List Char → List Nat × List Char
  | c :: cs =>
    match digVal c with
    | some d => let (ds, r) := scanDigits cs; (d :: ds, r)
    | none => ([], c :: cs)
  | [] => ([], [])

/-- Natural number denoted by a digit list (most significant first). -/
def natOfDigits (ds : List Nat) : Nat :=
  ds.foldl (fun acc d => acc * 10 + d) 0

/-- Scan a JSON number (`-? int frac? exp?`) into a rational.  The value
is `sign * (int.frac) * 10^exp`, computed as an exact integer when the
decimal shift is non-negative and as a reduced fraction otherwise. -/
def scanNum (cs : List Char) : Option (Rat × List Char) :=
  let (neg, cs1) :=
    match cs with
    | '-' :: rest => (true, rest)
    | _ => (false, cs)
  match scanDigits cs1 with
  | ([], _) => none
  | (ids, cs2) =>
    let (fds, cs3) :=
      match cs2 with
      | '.' :: rest => scanDigits rest
      | _ => ([], cs2)
    let hadDot : Bool := match cs2 with | '.' :: _ => true | _ => false
    if hadDot ∧ fds = [] then none
    else
      let (expOk, e, cs4) :=
        match cs3 with
        | c :: rest =>
          if c = 'e' ∨ c = 'E' then
            let (eneg, rest1) :=
              match rest with
              | '-' :: r => (true, r)
              | '+' :: r => (false, r)
              | _ => (false, rest)
            match scanDigits rest1 with
            | ([], _) => (false, (0 : Int), cs3)
            | (eds, r2) =>
              (true, if eneg then -(natOfDigits eds : Int) else (natOfDigits eds : Int), r2)
          else (true, 0, cs3)
        | [] => (true, 0, cs3)
      if expOk then
        let mantNat : Nat := natOfDigits ids * 10 ^ fds.length + natOfDigits fds
        let mant : Int := if neg then -(mantNat : Int) else (mantNat : Int)
        let shift : Int := e - fds.length
        let q : Rat :=
          if 0 ≤ shift then Rat.ofInt (mant * 10 ^ shift.toNat)
          else mkRat mant (10 ^ (-shift).toNat)
        some (q, cs4)
      else none

mutual

/-- Fuel-indexed JSON value scanner. -/
def scanVal : Nat → List Char → Option (JsVal × List Char)
  | 0, _ => none
  | Nat.succ fuel, cs =>
    match skipWs cs with
    | [] => none
    | '"' :: rest =>
      match scanStr rest with
      | some (s, r) => some (.str (String.mk s), r)
      | none => none
    | '[' :: rest =>
      match skipWs rest with
      | ']' :: r2 => some (.arr [], r2)
      | cs2 =>
        match scanItems fuel cs2 with
        | some (xs, r) => some (.arr xs, r)
        | none => none
    | '{' :: rest =>
      match skipWs rest with
      | '}' :: r2 => some (.obj [], r2)
      | cs2 =>
        match scanMembers fuel cs2 with
        | some (fs, r) => some (.obj fs, r)
        | none => none
    | 't' :: 'r' :: 'u' :: 'e' :: rest => some (.bool true, rest)
    | 'f' :: 'a' :: 'l' :: 's' :: 'e' :: rest => some (.bool false, rest)
    | 'n' :: 'u' :: 'l' :: 'l' :: rest => some (.null, rest)
    | cs1 =>
      match scanNum cs1 with
      | some (q, r) => some (.num (.fin q), r)
      | none => none

/-- Scan the elements of a non-empty JSON array (after the `[`). -/
def scanItems : Nat → List Char → Option (List JsVal × List Char)
  | 0, _ => none
  | Nat.succ fuel, cs =>
    match scanVal fuel cs with
    | none => none
    | some (v, r) =>
      match skipWs r with
      | ',' :: r2 =>
        match scanItems fuel r2 with
        | some (xs, r3) => some (v :: xs, r3)
        | none => none
      | ']' :: r2 => some ([v], r2)
      | _ => none

/-- Scan the members of a non-empty JSON object (after the `{`). -/
def scanMembers : Nat → List Char → Option (List (String × JsVal) × List Char)
  | 0, _ => none
  | Nat.succ fuel, cs =>
    match skipWs cs with
    | '"' :: rest =>
      match scanStr rest with
      | none => none
      | some (k, r) =>
        match skipWs r with
        | ':' :: r2 =>
          match scanVal fuel r2 with
          | none => none
          | some (v, r3) =>
            match skipWs r3 with
            | ',' :: r4 =>
              match scanMembers fuel r4 with
              | some (fs, r5) => some ((String.mk k, v) :: fs, r5)
              | none => none
            | '}' :: r4 => some ([(String.mk k, v)], r4)
            | _ => none
        | _ => none
    | _ => none

end

/-- Model of `JSON.parse`: `none` models a thrown `SyntaxError`.  The fuel bound
`2 * length + 16` dominates the recursion depth, since every two nested
scanner calls consume at least one input character. -/
def jsonParse (s : String) : Option JsVal :=
  let cs := s.toList
  match scanVal (2 * cs.length + 16) cs with
  | some (v, r) => if skipWs r = [] then some v else none
  | none => none

/-! ### `resp.replace(/\bNaN\b/g, 'null')` from `normalizeMovies` -/

/-- A regex word character (`\w`): ASCII letter, digit or underscore. -/
def isWordChar (c : Char) : Bool :=
  c.isAlpha || c.isDigit || c = '_'

/-- One pass of `/\bNaN\b/g → 'null'` over the characters, tracking the
previous character for the left word boundary.  On a failed match attempt
the scan advances by one character, as a regex engine does. -/
def replaceNaNAux : Nat → Option Char → List Char → List Char
  | 0, _, cs => cs
  | _ + 1, _, [] => []
  | fuel + 1, prev, c :: cs =>
    if c = 'N' then
      match cs with
      | 'a' :: 'N' :: rest =>
        let lb : Bool := match prev with | none => true | some p => !isWordChar p
        let rb : Bool := match rest with | [] => true | r :: _ => !isWordChar r
        if lb && rb then
          'n' :: 'u' :: 'l' :: 'l' :: replaceNaNAux fuel (some 'N') rest
        else
          'N' :: replaceNaNAux fuel (some 'N') cs
      | _ => 'N' :: replaceNaNAux fuel (some 'N') cs
    else c :: replaceNaNAux fuel (some c) cs

/-- The `safe` string of `normalizeMovies`:
`resp.replace(/\bNaN\b/g, 'null')`.  The fuel `length + 1` exceeds the
number of scanning steps, each of which consumes at least one character. -/
def replaceNaN (s : String) : String :=
  String.mk (replaceNaNAux (s.toList.length + 1) none s.toList)

/-! ### `normalizeMovies` (Movie.jsx lines 20–46)

The function body is a sequence of early returns; a thrown and uncaught
JavaScript error is modelled by `Except.error`. -/

/-- One step of `vals.every(v => typeof v === 'object' && ('movie_id' in v
|| 'title' in v))`.  `every` short-circuits; applying `in` to `null`
throws a `TypeError` (its guard `typeof null === 'object'` passes). -/
def everyMovieLike : List JsVal → Except String Bool
  | [] => .ok true
  | v :: rest =>
    if v.typeofStr = "object" then
      match v with
      | .null => .error "TypeError: Cannot use the in operator to search for movie_id in null"
      | _ =>
        if hasProp v "movie_id" || hasProp v "title" then everyMovieLike rest
        else .ok false
    else .ok false

/-- The field of `v`, provided `v` is an object and the field is an
array: models `Array.isArray(v.k)` guards followed by `return v.k`. -/
def getArrProp (v : JsVal) (k : String) : Option (List JsVal) :=
  match v with
  | .obj fs =>
    match getFld fs k with
    | .arr xs => some xs
    | _ => none
  | _ => none

/-- The `try { ... }` block of the string branch of `normalizeMovies`:
`some xs` when a `return` fires inside the block; `none` when the block
falls through — either an exception was caught (`JSON.parse` failure, or
a property access on a parsed `null`) or no shape matched. -/
def tryStringBlock (s : String) : Option (List JsVal) :=
  match jsonParse (replaceNaN s) with
  | none => none
  | some parsed =>
    match parsed with
    | .arr xs => some xs
    | .null => none
    | _ =>
      match getArrProp parsed "results" with
      | some xs => some xs
      | none =>
        match getArrProp parsed "movies" with
        | some xs => some xs
        | none => getArrProp parsed "data"

/-- The tail of `normalizeMovies` after the string branch: the
`resp.results` / `resp.movies` / `resp.data` checks, the
`Object.values` fallback, and the final `return []`.  Reached only with
truthy `resp`, so the property accesses cannot throw; the `in` operator
inside `every` can. -/
def normalizeTail (resp : JsVal) : Except String (List JsVal) :=
  match getArrProp resp "results" with
  | some xs => .ok xs
  | none =>
    match getArrProp resp "movies" with
    | some xs => .ok xs
    | none =>
      match getArrProp resp "data" with
      | some xs => .ok xs
      | none =>
        if resp.typeofStr = "object" then
          match resp with
          | .obj fs =>
            let vals := objValues fs
            if vals.length > 0 then
              match everyMovieLike vals with
              | .error e => .error e
              | .ok true => .ok vals
              | .ok false => .ok []
            else .ok []
          | _ => .ok []
        else .ok []

/-- The `normalizeMovies` helper from `Movie.jsx`, with uncaught exceptions made
explicit. -/
def normalizeMoviesRun (resp : JsVal) : Except String (List JsVal) :=
  if resp.falsy then .ok []
  else
    match resp with
    | .arr xs => .ok xs
    | .str s =>
      match tryStringBlock s with
      | some xs => .ok xs
      | none => normalizeTail resp
    | _ => normalizeTail resp

/-! ### `sanitizeMovies` (Movie.jsx lines 48–53) -/

/-- Fields contributed by object spread `{...m}`: an object's own fields;
a string's indexed characters; nothing for other primitives. -/
def spreadFields : JsVal → List (String × JsVal)
  | .obj fs => fs
  | .str s => (s.toList.enum.map fun p => (toString p.1, JsVal.str (String.mk [p.2])))
  | _ => []

/-- Optional chaining `m?.k`: `undefined` on `null`/`undefined`, field
lookup on objects, `undefined` otherwise (for the keys the client probes,
which are not properties of other primitives). -/
def optChain : JsVal → String → JsVal
  | .null, _ => .undefined
  | .undefined, _ => .undefined
  | .obj fs, k => getFld fs k
  | _, _ => .undefined

/-- The `Number.isFinite` test. -/
def isFiniteNum : JsVal → Bool
  | .num (.fin _) => true
  | _ => false

/-- The coercion `Number.isFinite(m?.k) ? m.k : null`. -/
def coerceFinite (m : JsVal) (k : String) : JsVal :=
  if isFiniteNum (optChain m k) then optChain m k else .null

/-- Updating a field list as a JavaScript object literal override does:
an existing key keeps its position and gets the new value, a new key is
appended (JavaScript objects have unique keys). -/
def setFld : List (String × JsVal) → String → JsVal → List (String × JsVal)
  | [], k, v => [(k, v)]
  | (k1, v1) :: fs, k, v =>
    if k1 = k then (k, v) :: fs else (k1, v1) :: setFld fs k v

/-- One element of `sanitizeMovies`:
`{...m, avg_rating: ..., num_ratings: ..., score: ...}` where each of the
three fields reads from the original `m`. -/
def sanitizeMovie (m : JsVal) : JsVal :=
  .obj (setFld (setFld (setFld (spreadFields m)
      "avg_rating" (coerceFinite m "avg_rating"))
      "num_ratings" (coerceFinite m "num_ratings"))
      "score" (coerceFinite m "score"))

/-- The `sanitizeMovies` helper from `Movie.jsx`: `(arr || []).map(...)`; the caller
always passes the list produced by `normalizeMovies`. -/
def sanitizeMovies (arr : List JsVal) : List JsVal :=
  arr.map sanitizeMovie

/-! ### The movie-listing view state (Movie.jsx) -/

/-- The state touched by the `fetchMovies` effect of `Movie.jsx`. -/
structure ViewState where
  movies : List JsVal
  loading : Bool
  error : Option String

/-- Fallback message of the `fetchMovies` catch block. -/
def loadFallbackMsg : String :=
  "Failed to load movies. Make sure the backend is running on port 5000."

/-- The fallback choice `err.message || fallback`. -/
def orFallback (msg fallback : String) : String :=
  if msg = "" then fallback else msg

/-- One completed run of the `fetchMovies` async function in `Movie.jsx`:
`apiResult` is the outcome of the awaited `movieAPI` call (`.error` models
a rejection whose `Error` has the given `message`).  The `try` block also
catches an exception thrown by `normalizeMovies` itself.  The net effect
of `setLoading(true); setError(null); ...; setLoading(false)` on the final
state is recorded. -/
def fetchMoviesStep (st : ViewState) (apiResult : Except String JsVal) : ViewState :=
  match apiResult with
  | .error msg =>
    { st with loading := false, error := some (orFallback msg loadFallbackMsg) }
  | .ok data =>
    match normalizeMoviesRun data with
    | .ok l => { movies := sanitizeMovies l, loading := false, error := none }
    | .error msg =>
      { st with loading := false, error := some (orFallback msg loadFallbackMsg) }

/-- One completed run of the `fetchSimilar` effect in `Movie.jsx`: on any
caught error the similar list is reset to `[]`; otherwise it becomes the
sanitized, normalized response.  Returns the new `similarMovies` list. -/
def fetchSimilarStep (apiResult : Except String JsVal) : List JsVal :=
  match apiResult with
  | .error _ => []
  | .ok data =>
    match normalizeMoviesRun data with
    | .ok l => sanitizeMovies l
    | .error _ => []

/-! ### `useMovieSearch.search` (useMovies.js lines 44–61) -/

/-- JavaScript string whitespace for `trim()` (the ASCII classes plus
no-break space). -/
def jsIsWs (c : Char) : Bool :=
  c = ' ' || c = '\t' || c = '\n' || c = '\r' ||
  c = Char.ofNat 11 || c = Char.ofNat 12 || c = Char.ofNat 0xA0

/-- The `String.prototype.trim` operation. -/
def jsTrim (s : String) : String :=
  String.mk (((s.toList.dropWhile jsIsWs).reverse.dropWhile jsIsWs).reverse)

/-- The guard `!query || query.trim().length === 0`. -/
def isBlankQuery (q : String) : Bool :=
  q = "" || (jsTrim q).length = 0

/-- State of the `useMovieSearch` hook. -/
structure SearchState where
  results : JsVal
  loading : Bool
  error : Option String

/-- One completed call of `useMovieSearch.search(query)`: the returned
`Bool` records whether `movieAPI.searchMovies` was invoked.  On a blank
query the hook sets `results` to `[]` and returns before touching
`loading` or `error`; otherwise the request outcome is stored raw. -/
def searchStep (query : String) (st : SearchState) (apiResult : Except String JsVal) :
    SearchState × Bool :=
  if isBlankQuery query then
    ({ st with results := .arr [] }, false)
  else
    match apiResult with
    | .ok data => ({ results := data, loading := false, error := none }, true)
    | .error msg => ({ st with loading := false, error := some msg }, true)

/-! ### The axios response interceptor (api.js lines 75–90) -/

/-- A thrown JavaScript value: an `Error` built from the given constructor
argument, or an uncaught `TypeError` raised by the handler itself. -/
inductive Thrown where
  | errObj (arg : JsVal)
  | typeError (msg : String)

/-- The rejection object axios hands to the interceptor: `response`
carries `error.response.data` when the server answered, `hasRequest`
models a truthy `error.request`, and `message` is `error.message`. -/
structure AxiosErrObj where
  response : Option JsVal
  hasRequest : Bool
  message : String

/-- The no-response message thrown by the interceptor. -/
def noResponseMsg : String :=
  "No response from server. Please check if the backend is running."

/-- The generic server-error fallback of the interceptor. -/
def serverErrorMsg : String := "Server error occurred"

/-- The error handler of `api.interceptors.response.use`: with a response
it evaluates `error.response.data.error || 'Server error occurred'` and
throws an `Error` on that value; the property access itself throws a
`TypeError` when `data` is `null`/`undefined`.  Without a response it
throws the no-response `Error`, or the request-setup `Error`. -/
def respInterceptOnError (e : AxiosErrObj) : Thrown :=
  match e.response with
  | some data =>
    match propAccess data "error" with
    | .error msg => .typeError msg
    | .ok f => .errObj (if f.falsy then .str serverErrorMsg else f)
  | none =>
    if e.hasRequest then .errObj (.str noResponseMsg)
    else .errObj (.str ("Request failed: " ++ e.message))

/-! ### The debounced `fetchMovies` effect (Movie.jsx lines 69–94)

The effect depends on `[selectedGenre, searchQuery]`; React runs the
previous cleanup (`clearTimeout`) before re-running the body, which
schedules `setTimeout(fetchMovies, searchQuery ? 500 : 0)` closing over
the current query and genre.  The event loop is embedded as a step
function over this state. -/

/-- State of the debounced effect: current dependencies and the pending
timer, which records the `(query, genre)` captured by the scheduled
closure and the delay it was scheduled with. -/
structure DebounceState where
  query : String
  genre : String
  timer : Option (String × String × Nat)

/-- Events of the event loop: a keystroke (query change), a genre click
(which resets the query to the empty string, as the genre buttons call
`setSelectedGenre(genre); setSearchQuery('')`), and a timer firing. -/
inductive DebounceEv where
  | setQuery (q : String)
  | clickGenre (g : String)
  | fire

/-- The delay `searchQuery ? 500 : 0`. -/
def debounceDelay (q : String) : Nat :=
  if q = "" then 0 else 500

/-- One event-loop step.  A dependency change clears the old timer and
schedules a fresh one for the new dependencies; `fire` dispatches the
request captured by the pending closure, if any.  The second component is
the `(query, genre)` of a dispatched `fetchMovies` run. -/
def debounceStep (s : DebounceState) (ev : DebounceEv) :
    DebounceState × Option (String × String) :=
  match ev with
  | .setQuery q =>
    (⟨q, s.genre, some (q, s.genre, debounceDelay q)⟩, none)
  | .clickGenre g =>
    (⟨"", g, some ("", g, debounceDelay "")⟩, none)
  | .fire =>
    match s.timer with
    | some (q, g, _) => (⟨s.query, s.genre, none⟩, some (q, g))
    | none => (s, none)

/-- The timer invariant: a pending closure always captures exactly the
current dependencies. -/
def debounceInv (s : DebounceState) : Prop :=
  ∀ q g d, s.timer = some (q, g, d) → q = s.query ∧ g = s.genre

/-! ### `toggleFavorite` (Movie.jsx lines 112–116) -/

/-- The update `prev.includes(id) ? prev.filter(fav => fav !== id) : [...prev, id]`. -/
def toggleFavorite (id : Nat) (prev : List Nat) : List Nat :=
  if id ∈ prev then prev.filter (fun fav => fav ≠ id) else prev ++ [id]

/-! ### The Recommendation Service query layer

Modelled from the spec: the backend (`backend/app.py`,
`backend/movie_recommend.py` in the README's project layout) is not part
of the available sources, so `getPopular` and `getSimilar` are embedded
from the spec's §3–§4.1 wording: an immutable snapshot of a movie
catalog, a PopularityScore per movie, and a SimilarityRow per movie. -/

/-- A catalog movie (spec §3). -/
structure CatMovie where
  movie_id : Nat
  title : String
  genres : List String
deriving DecidableEq, Repr

/-- Service error outcomes (spec §7). -/
inductive SvcError where
  | invalidArgument
  | notFound
deriving DecidableEq, Repr

/-- Modelled from the spec: the immutable snapshot — catalog,
PopularityScore table and SimilarityRow table. -/
structure Snapshot where
  catalog : List CatMovie
  pop : List (Nat × Rat)
  sim : List (Nat × List (Nat × Rat))

/-- Membership of a movie id in the catalog. -/
def Snapshot.inCatalog (snap : Snapshot) (id : Nat) : Bool :=
  snap.catalog.any (fun m => m.movie_id = id)

/-- PopularityScore of a movie id (0 when the table has no entry). -/
def Snapshot.popOf (snap : Snapshot) (id : Nat) : Rat :=
  match snap.pop.find? (fun p => p.1 = id) with
  | some p => p.2
  | none => 0

/-- SimilarityRow of a movie id (empty when the table has no entry). -/
def Snapshot.simRow (snap : Snapshot) (id : Nat) : List (Nat × Rat) :=
  match snap.sim.find? (fun p => p.1 = id) with
  | some p => p.2
  | none => []

/-- Neighbor ordering for `getSimilar`: similarity score descending. -/
def simRel (a b : Nat × Rat) : Prop :=
  b.2 ≤ a.2

instance : DecidableRel simRel := fun a b =>
  inferInstanceAs (Decidable (b.2 ≤ a.2))

instance : IsTotal (Nat × Rat) simRel :=
  ⟨fun a b => (le_total b.2 a.2).imp id id⟩

instance : IsTrans (Nat × Rat) simRel :=
  ⟨fun _ _ _ h1 h2 => le_trans h2 h1⟩

/-- Modelled from the spec: `getSimilar(movieId, n)` looks `movieId` up in
SimilarityRow and returns the top-`n` neighbors by similarity score
descending, excluding the query movie itself; `NotFound` when `movieId`
is absent from the catalog (spec §4.1). -/
def getSimilar (snap : Snapshot) (movieId : Nat) (n : Nat) :
    Except SvcError (List (Nat × Rat)) :=
  if snap.inCatalog movieId then
    .ok ((List.insertionSort simRel ((snap.simRow movieId).filter
      (fun p => p.1 ≠ movieId))).take n)
  else .error .notFound

/-- Catalog ordering for `getPopular`: PopularityScore descending, ties
broken by `movie_id` ascending. -/
def popRel (snap : Snapshot) (a b : CatMovie) : Prop :=
  snap.popOf b.movie_id < snap.popOf a.movie_id ∨
  (snap.popOf a.movie_id = snap.popOf b.movie_id ∧ a.movie_id ≤ b.movie_id)

instance (snap : Snapshot) : DecidableRel (popRel snap) := fun _ _ =>
  inferInstanceAs (Decidable (_ ∨ _))

instance (snap : Snapshot) : IsTotal CatMovie (popRel snap) := by
  refine ⟨fun a b => ?_⟩
  rcases lt_trichotomy (snap.popOf a.movie_id) (snap.popOf b.movie_id) with h | h | h
  · exact Or.inr (Or.inl h)
  · rcases Nat.le_total a.movie_id b.movie_id with h2 | h2
    · exact Or.inl (Or.inr ⟨h, h2⟩)
    · exact Or.inr (Or.inr ⟨h.symm, h2⟩)
  · exact Or.inl (Or.inl h)

instance (snap : Snapshot) : IsTrans CatMovie (popRel snap) := by
  refine ⟨fun a b c h1 h2 => ?_⟩
  rcases h1 with h1 | ⟨h1e, h1i⟩ <;> rcases h2 with h2 | ⟨h2e, h2i⟩
  · exact Or.inl (lt_trans h2 h1)
  · exact Or.inl (h2e ▸ h1)
  · exact Or.inl (h1e ▸ h2)
  · exact Or.inr ⟨h1e.trans h2e, le_trans h1i h2i⟩

/-- Modelled from the spec: `getPopular(n)` returns the top-`n` movies by
PopularityScore descending with a stable `movie_id`-ascending tie-break,
and fails with `InvalidArgument` when `n ≤ 0` (spec §4.1). -/
def getPopular (snap : Snapshot) (n : Int) : Except SvcError (List CatMovie) :=
  if n ≤ 0 then .error .invalidArgument
  else .ok ((List.insertionSort (popRel snap) snap.catalog).take n.toNat)

/-- A three-movie snapshot used to exercise the service operations on
concrete inputs. -/
def wSnap : Snapshot where
  catalog := [⟨1, "Toy Story", ["Animation"]⟩, ⟨2, "Jumanji", ["Adventure"]⟩,
    ⟨3, "Heat", ["Action"]⟩]
  pop := [(1, 5), (2, 3), (3, 5)]
  sim := [(1, [(1, 1), (2, 2), (3, 3)])]

/-! ### Helper lemmas -/

/-- A numeric field stored by the client is acceptable when it is an
explicit `null` or a finite number (spec §4.2). -/
def finiteOrNull (v : JsVal) : Prop :=
  v = .null ∨ ∃ q, v = .num (.fin q)

/-- Every movie in the list carries acceptable `avg_rating`,
`num_ratings` and `score` fields. -/
def moviesOk (l : List JsVal) : Prop :=
  ∀ m ∈ l,
    finiteOrNull (optChain m "avg_rating") ∧
    finiteOrNull (optChain m "num_ratings") ∧
    finiteOrNull (optChain m "score")

theorem getFld_setFld_self (fs : List (String × JsVal)) (k : String) (v : JsVal) :
    getFld (setFld fs k v) k = v := by
  induction fs with
  | nil => simp [setFld, getFld]
  | cons p fs ih =>
    obtain ⟨k1, v1⟩ := p
    by_cases h : k1 = k
    · simp [setFld, h, getFld]
    · simp [setFld, h, getFld, ih]

theorem getFld_setFld_ne (fs : List (String × JsVal)) (k k' : String) (v : JsVal)
    (h : k' ≠ k) : getFld (setFld fs k v) k' = getFld fs k' := by
  induction fs with
  | nil =>
    simp only [setFld, getFld]
    rw [if_neg (Ne.symm h)]
  | cons p fs ih =>
    obtain ⟨k1, v1⟩ := p
    by_cases h1 : k1 = k
    · subst h1
      simp only [setFld, if_pos rfl, getFld]
      rw [if_neg (Ne.symm h), if_neg (Ne.symm h)]
    · simp only [setFld, if_neg h1, getFld]
      by_cases h2 : k1 = k'
      · rw [if_pos h2, if_pos h2]
      · rw [if_neg h2, if_neg h2, ih]

theorem coerceFinite_ok (m : JsVal) (k : String) :
    finiteOrNull (coerceFinite m k) := by
  unfold coerceFinite
  cases h : optChain m k with
  | num x =>
    cases x with
    | fin q => exact Or.inr ⟨q, by simp [isFiniteNum, h]⟩
    | nan => exact Or.inl (by simp [isFiniteNum, h])
    | inf b => exact Or.inl (by simp [isFiniteNum, h])
  | undefined => exact Or.inl (by simp [isFiniteNum, h])
  | null => exact Or.inl (by simp [isFiniteNum, h])
  | bool b => exact Or.inl (by simp [isFiniteNum, h])
  | str s => exact Or.inl (by simp [isFiniteNum, h])
  | arr xs => exact Or.inl (by simp [isFiniteNum, h])
  | obj fs => exact Or.inl (by simp [isFiniteNum, h])

theorem sanitizeMovie_fields (m : JsVal) :
    optChain (sanitizeMovie m) "avg_rating" = coerceFinite m "avg_rating" ∧
    optChain (sanitizeMovie m) "num_ratings" = coerceFinite m "num_ratings" ∧
    optChain (sanitizeMovie m) "score" = coerceFinite m "score" := by
  unfold sanitizeMovie
  refine ⟨?_, ?_, ?_⟩
  · show getFld _ "avg_rating" = _
    rw [getFld_setFld_ne _ _ _ _ (by decide), getFld_setFld_ne _ _ _ _ (by decide),
      getFld_setFld_self]
  · show getFld _ "num_ratings" = _
    rw [getFld_setFld_ne _ _ _ _ (by decide), getFld_setFld_self]
  · show getFld _ "score" = _
    rw [getFld_setFld_self]

theorem moviesOk_sanitize (l : List JsVal) : moviesOk (sanitizeMovies l) := by
  intro m hm
  rcases List.mem_map.mp hm with ⟨m0, _, rfl⟩
  obtain ⟨h1, h2, h3⟩ := sanitizeMovie_fields m0
  exact ⟨h1 ▸ coerceFinite_ok m0 "avg_rating",
    h2 ▸ coerceFinite_ok m0 "num_ratings",
    h3 ▸ coerceFinite_ok m0 "score"⟩

/-! ### Claim theorems -/

/-- C1: for the input string `[{"movie_id":1,"title":"X","avg_rating":NaN}]`
(braces escaped as `\x7b`/`\x7d`), `normalizeMovies` followed by
`sanitizeMovies` does not throw and returns a one-element list whose
element has `movie_id` 1, `title` "X", and `avg_rating` null. -/
theorem c1_nan_literal_normalizes :
    ∃ l m,
      normalizeMoviesRun
        (.str "[\x7b\"movie_id\":1,\"title\":\"X\",\"avg_rating\":NaN\x7d]") = .ok l ∧
      sanitizeMovies l = [m] ∧
      optChain m "movie_id" = .num (.fin 1) ∧
      optChain m "title" = .str "X" ∧
      optChain m "avg_rating" = .null := by
  exact ⟨_, _, rfl, rfl, rfl, rfl, rfl⟩

/-- C2: the claim that `normalizeMovies` never throws fails on the object
`{"a": null}` — a malformed-but-parseable payload — because
`vals.every(v => typeof v === 'object' && ('movie_id' in v || 'title' in v))`
applies the `in` operator to `null` (whose `typeof` is `'object'`),
raising an uncaught `TypeError` instead of degrading to `[]`. -/
theorem c2_normalize_throws_on_null_valued_object :
    normalizeMoviesRun (.obj [("a", .null)]) =
      .error "TypeError: Cannot use the in operator to search for movie_id in null" := rfl

/-- C3: movie lists reaching the rendered state of `Movie.jsx` — through
the popular / by-genre / search effect (`fetchMoviesStep`) and the
similar-movies effect (`fetchSimilarStep`) — always carry `avg_rating`,
`num_ratings` and `score` fields that are finite numbers or null; a
non-finite or missing value is never stored. -/
theorem c3_rendered_numeric_fields_finite_or_null :
    (∀ (st : ViewState) (r : Except String JsVal),
      moviesOk st.movies → moviesOk (fetchMoviesStep st r).movies) ∧
    (∀ r : Except String JsVal, moviesOk (fetchSimilarStep r)) := by
  constructor
  · intro st r h
    cases r with
    | error msg => exact h
    | ok data =>
      cases hn : normalizeMoviesRun data with
      | ok l => simpa [fetchMoviesStep, hn] using moviesOk_sanitize l
      | error msg => simpa [fetchMoviesStep, hn] using h
  · intro r
    cases r with
    | error msg => simp [fetchSimilarStep, moviesOk]
    | ok data =>
      cases hn : normalizeMoviesRun data with
      | ok l => simpa [fetchSimilarStep, hn] using moviesOk_sanitize l
      | error msg => simp [fetchSimilarStep, hn, moviesOk]

/-- C3 witness: the invariant instantiated at a concrete fetch. -/
theorem c3_witness :
    moviesOk (fetchMoviesStep ⟨[], true, none⟩
      (.ok (.arr [.obj [("movie_id", .num (.fin 1)), ("avg_rating", .num .nan)]]))).movies :=
  c3_rendered_numeric_fields_finite_or_null.1 ⟨[], true, none⟩ _
    (fun m hm => absurd hm (List.not_mem_nil m))

/-- C4: a query that is empty or whitespace-only makes
`useMovieSearch.search` store an empty result list, issue no request, and
leave the error state untouched. -/
theorem c4_blank_query_empty_no_request (q : String) (st : SearchState)
    (r : Except String JsVal) (h : isBlankQuery q = true) :
    (searchStep q st r).1.results = .arr [] ∧
    (searchStep q st r).2 = false ∧
    (searchStep q st r).1.error = st.error := by
  simp [searchStep, h]

/-- C4 witness: a whitespace-only query. -/
theorem c4_witness :
    (searchStep "   " ⟨.arr [], false, some "old"⟩ (.ok .null)).1.results = .arr [] ∧
    (searchStep "   " ⟨.arr [], false, some "old"⟩ (.ok .null)).2 = false ∧
    (searchStep "   " ⟨.arr [], false, some "old"⟩ (.ok .null)).1.error = some "old" :=
  c4_blank_query_empty_no_request "   " ⟨.arr [], false, some "old"⟩ (.ok .null) rfl

/-- C10: a `fetchMovies` run that ends in an error — a rejected API call,
or a normalization exception caught by the same `try` — leaves the stored
movies untouched and only updates `loading` and `error`. -/
theorem c10_failed_fetch_preserves_movies (st : ViewState) (msg : String) :
    (fetchMoviesStep st (.error msg)).movies = st.movies ∧
    (fetchMoviesStep st (.error msg)).loading = false ∧
    (fetchMoviesStep st (.error msg)).error = some (orFallback msg loadFallbackMsg) ∧
    (∀ data m, normalizeMoviesRun data = .error m →
      (fetchMoviesStep st (.ok data)).movies = st.movies) := by
  refine ⟨rfl, rfl, rfl, fun data m hm => ?_⟩
  simp [fetchMoviesStep, hm]

/-- C10 witness: a failed refresh over a non-empty previous list. -/
theorem c10_witness :
    (fetchMoviesStep ⟨[.obj [("movie_id", .num (.fin 7))]], false, none⟩
      (.error "boom")).movies = [.obj [("movie_id", .num (.fin 7))]] ∧
    (fetchMoviesStep ⟨[.obj [("movie_id", .num (.fin 7))]], false, none⟩
      (.ok (.obj [("a", .null)]))).movies = [.obj [("movie_id", .num (.fin 7))]] :=
  ⟨(c10_failed_fetch_preserves_movies ⟨[.obj [("movie_id", .num (.fin 7))]], false, none⟩
      "boom").1,
   (c10_failed_fetch_preserves_movies ⟨[.obj [("movie_id", .num (.fin 7))]], false, none⟩
      "boom").2.2.2 (.obj [("a", .null)]) _ rfl⟩

/-- C5 counterexample: for the response body `{"error": ""}` the `error`
string field is present, yet the interceptor does not throw an Error
carrying it — `data.error || 'Server error occurred'` discards the falsy
empty string — refuting the claim as stated. -/
theorem c5_counterexample :
    respInterceptOnError ⟨some (.obj [("error", .str "")]), true, ""⟩ ≠
      Thrown.errObj (.str "") := by
  intro h
  have h2 : Thrown.errObj (.str serverErrorMsg) = Thrown.errObj (.str "") := h
  simp [serverErrorMsg] at h2

/-- C5 amended: for a response whose body's `error` field is a non-empty
string, the interceptor throws an Error carrying it; when the field
evaluates to a falsy value (absent, empty, or the body is an unparsable
string), it throws the generic fallback; with no response received it
throws the distinct no-response Error.  (A `null` body instead raises an
uncaught `TypeError` in the property access.) -/
theorem c5_interceptor_amended (e : AxiosErrObj) :
    (∀ data s, e.response = some data → propAccess data "error" = .ok (.str s) →
      s ≠ "" → respInterceptOnError e = .errObj (.str s)) ∧
    (∀ data f, e.response = some data → propAccess data "error" = .ok f →
      f.falsy = true → respInterceptOnError e = .errObj (.str serverErrorMsg)) ∧
    (e.response = none → e.hasRequest = true →
      respInterceptOnError e = .errObj (.str noResponseMsg)) := by
  refine ⟨fun data s hr hp hs => ?_, fun data f hr hp hf => ?_, fun hr hq => ?_⟩
  · simp [respInterceptOnError, hr, hp, JsVal.falsy, hs]
  · simp [respInterceptOnError, hr, hp, hf]
  · simp [respInterceptOnError, hr, hq]

/-- C5 witness: concrete instances of all three amended branches. -/
theorem c5_witness :
    respInterceptOnError ⟨some (.obj [("error", .str "boom")]), true, ""⟩ =
      .errObj (.str "boom") ∧
    respInterceptOnError ⟨some (.str "<html>oops"), true, ""⟩ =
      .errObj (.str serverErrorMsg) ∧
    respInterceptOnError ⟨none, true, ""⟩ = .errObj (.str noResponseMsg) :=
  ⟨(c5_interceptor_amended ⟨some (.obj [("error", .str "boom")]), true, ""⟩).1
      (.obj [("error", .str "boom")]) "boom" rfl rfl (by simp),
   (c5_interceptor_amended ⟨some (.str "<html>oops"), true, ""⟩).2.1
      (.str "<html>oops") .undefined rfl rfl rfl,
   (c5_interceptor_amended ⟨none, true, ""⟩).2.2 rfl rfl⟩

/-- C6: after any reachable event-loop history (the timer invariant), a
keystroke changing the query to a non-empty string first cancels the
pending timer and then schedules the dispatch with a fixed 500 ms delay
for exactly the new query; the invariant is preserved by every event, and
a timer firing only ever dispatches the current query and genre — never a
stale one. -/
theorem c6_debounce_reset (s : DebounceState) (hinv : debounceInv s) :
    (∀ q, q ≠ "" → (debounceStep s (.setQuery q)).1.timer = some (q, s.genre, 500)) ∧
    (∀ ev, debounceInv (debounceStep s ev).1) ∧
    (∀ q g, (debounceStep s .fire).2 = some (q, g) → q = s.query ∧ g = s.genre) := by
  refine ⟨fun q hq => ?_, fun ev => ?_, fun q g h => ?_⟩
  · simp [debounceStep, debounceDelay, hq]
  · cases ev with
    | setQuery q =>
      intro q' g' d' h
      simp [debounceStep] at h
      simp [debounceStep, h.1, h.2.1]
    | clickGenre g =>
      intro q' g' d' h
      simp [debounceStep] at h
      simp [debounceStep, h.1, h.2.1]
    | fire =>
      cases ht : s.timer with
      | none => intro q' g' d' h; simp [debounceStep, ht] at h
      | some t => intro q' g' d' h; simp [debounceStep, ht] at h
  · cases ht : s.timer with
    | none => simp [debounceStep, ht] at h
    | some t =>
      obtain ⟨tq, tg, td⟩ := t
      simp [debounceStep, ht] at h
      obtain ⟨hq, hg⟩ := hinv tq tg td ht
      exact ⟨h.1 ▸ hq, h.2 ▸ hg⟩

/-- C6 witness: a keystroke over a pending blank-query timer. -/
theorem c6_witness :
    (debounceStep ⟨"", "All", some ("", "All", 0)⟩ (.setQuery "toy")).1.timer =
      some ("toy", "All", 500) :=
  (c6_debounce_reset ⟨"", "All", some ("", "All", 0)⟩
    (fun q g d h => by
      simp only [Option.some.injEq, Prod.mk.injEq] at h
      exact ⟨h.1.symm, h.2.1.symm⟩)).1
    "toy" (by simp)

/-- C9: on a duplicate-free favorites list, `toggleFavorite` preserves
freedom from duplicates, and toggling the same id twice restores the
original membership. -/
theorem c9_toggleFavorite_involutive (prev : List Nat) (id : Nat) (h : prev.Nodup) :
    (toggleFavorite id prev).Nodup ∧
    (∀ x, x ∈ toggleFavorite id (toggleFavorite id prev) ↔ x ∈ prev) := by
  by_cases hid : id ∈ prev
  · constructor
    · simp only [toggleFavorite, if_pos hid]
      exact h.filter _
    · intro x
      have hnotin : id ∉ prev.filter (fun fav => fav ≠ id) := by
        simp
      simp only [toggleFavorite, if_pos hid, if_neg hnotin]
      simp only [List.mem_append, List.mem_filter, List.mem_singleton]
      constructor
      · rintro (⟨hx, _⟩ | rfl)
        · exact hx
        · exact hid
      · intro hx
        by_cases hxi : x = id
        · exact Or.inr hxi
        · exact Or.inl ⟨hx, by simpa using hxi⟩
  · constructor
    · simp only [toggleFavorite, if_neg hid]
      simp [List.nodup_append, h, hid]
    · intro x
      have hin : id ∈ prev ++ [id] := by simp
      simp only [toggleFavorite, if_neg hid, if_pos hin]
      rw [List.filter_append]
      have h1 : prev.filter (fun fav => fav ≠ id) = prev :=
        List.filter_eq_self.mpr (fun a ha => by
          simp only [ne_eq, decide_not, Bool.not_eq_eq_eq_not, Bool.not_true,
            decide_eq_false_iff_not]
          exact fun hai => hid (hai ▸ ha))
      have h2 : [id].filter (fun fav => fav ≠ id) = [] := by simp
      rw [h1, h2, List.append_nil]

/-- C9 witness: toggling 2 on the duplicate-free list `[1, 2]`. -/
theorem c9_witness :
    (toggleFavorite 2 [1, 2]).Nodup ∧
    (∀ x, x ∈ toggleFavorite 2 (toggleFavorite 2 [1, 2]) ↔ x ∈ [1, 2]) :=
  c9_toggleFavorite_involutive [1, 2] 2 (by decide)

/-- C7: for a catalog movie, `getSimilar(id, n)` succeeds with a list that
never contains `id` itself and is ordered by similarity score descending;
for an id absent from the catalog it fails with `NotFound`. -/
theorem c7_getSimilar_excludes_self (snap : Snapshot) (id n : Nat) :
    (snap.inCatalog id = true →
      ∃ l, getSimilar snap id n = .ok l ∧ (∀ p ∈ l, p.1 ≠ id) ∧
        l.Pairwise (fun a b => b.2 ≤ a.2)) ∧
    (snap.inCatalog id = false → getSimilar snap id n = .error .notFound) := by
  constructor
  · intro h
    refine ⟨(List.insertionSort simRel ((snap.simRow id).filter
        (fun p => p.1 ≠ id))).take n, by simp [getSimilar, h], ?_, ?_⟩
    · intro p hp
      have hp1 := List.mem_of_mem_take hp
      have hp2 := (List.mem_insertionSort simRel).mp hp1
      exact of_decide_eq_true (List.mem_filter.mp hp2).2
    · exact List.Pairwise.sublist (List.take_sublist n _)
        (List.sorted_insertionSort simRel _)
  · intro h
    simp [getSimilar, h]

/-- C7 witness: both branches at concrete ids. -/
theorem c7_witness :
    (∃ l, getSimilar wSnap 1 10 = .ok l ∧ (∀ p ∈ l, p.1 ≠ 1) ∧
      l.Pairwise (fun a b => b.2 ≤ a.2)) ∧
    getSimilar wSnap 99 3 = .error .notFound :=
  ⟨(c7_getSimilar_excludes_self wSnap 1 10).1 rfl,
   (c7_getSimilar_excludes_self wSnap 99 3).2 rfl⟩

/-- C8: for `n > 0`, `getPopular(n)` succeeds with at most `n` movies,
sorted non-increasing by PopularityScore with ties broken by `movie_id`
ascending; for `n ≤ 0` it fails with `InvalidArgument`. -/
theorem c8_getPopular_sorted_bounded (snap : Snapshot) (n : Int) :
    (0 < n →
      ∃ l, getPopular snap n = .ok l ∧ (l.length : Int) ≤ n ∧
        l.Pairwise (fun a b => snap.popOf b.movie_id ≤ snap.popOf a.movie_id ∧
          (snap.popOf a.movie_id = snap.popOf b.movie_id → a.movie_id ≤ b.movie_id))) ∧
    (n ≤ 0 → getPopular snap n = .error .invalidArgument) := by
  constructor
  · intro h
    have hn : ¬ n ≤ 0 := not_le.mpr h
    refine ⟨(List.insertionSort (popRel snap) snap.catalog).take n.toNat,
      by simp [getPopular, hn], ?_, ?_⟩
    · calc ((List.insertionSort (popRel snap) snap.catalog).take n.toNat).length
          ≤ (n.toNat : Int) := by exact_mod_cast List.length_take_le _ _
        _ = n := Int.toNat_of_nonneg (le_of_lt h)
    · refine List.Pairwise.imp ?_ (List.Pairwise.sublist (List.take_sublist n.toNat _)
        (List.sorted_insertionSort (popRel snap) snap.catalog))
      intro a b hab
      rcases hab with hlt | ⟨heq, hle⟩
      · exact ⟨le_of_lt hlt, fun he => absurd hlt (by simp [he])⟩
      · exact ⟨le_of_eq heq.symm, fun _ => hle⟩
  · intro h
    simp [getPopular, h]

/-- C8 witness: both branches at concrete arguments. -/
theorem c8_witness :
    (∃ l, getPopular wSnap 2 = .ok l ∧ (l.length : Int) ≤ 2 ∧
      l.Pairwise (fun a b => wSnap.popOf b.movie_id ≤ wSnap.popOf a.movie_id ∧
        (wSnap.popOf a.movie_id = wSnap.popOf b.movie_id → a.movie_id ≤ b.movie_id))) ∧
    getPopular wSnap 0 = .error .invalidArgument :=
  ⟨(c8_getPopular_sorted_bounded wSnap 2).1 (by decide),
   (c8_getPopular_sorted_bounded wSnap 0).2 (by decide)⟩
